import Mathlib

/-!
Verification of the muteme-button-control-linux core against its
specification.  The definitions below are a shallow embedding of
`src/muteme_btn/core/state.py` (button state machine),
`src/muteme_btn/hid/device.py` (button report decoding and LED report
codec), `src/muteme_btn/core/led_feedback.py` (LED feedback controller)
and `src/muteme_btn/core/daemon.py` (action dispatch).

Timestamps are modelled as integer milliseconds: the Python code compares
`(a - b).total_seconds() * 1000` against integer millisecond thresholds,
which for millisecond-granularity datetimes is exactly integer
subtraction and comparison.
-/

namespace MuteMe

/-- `ButtonState` enum from `core/state.py`. -/
inductive ButtonState where
  | idle
  | pressed
deriving DecidableEq, Repr

/-- The three event type strings accepted by the state machine
(`"press"`, `"release"`, `"timeout"`). -/
inductive EventType where
  | press
  | release
  | timeout
deriving DecidableEq, Repr

/-- `ButtonEvent` dataclass from `core/state.py`, with the timestamp in
integer milliseconds. -/
structure ButtonEvent where
  type : EventType
  timestamp : Int
deriving DecidableEq, Repr

/-- The mutable fields of `ButtonStateMachine` together with its two
construction-time configuration values. -/
structure ButtonStateMachine where
  current_state : ButtonState
  last_press_time : Option Int
  press_count : Nat
  state_entry_time : Int
  double_tap_timeout_ms : Int
  debounce_time_ms : Int
deriving DecidableEq, Repr

/-- `ButtonStateMachine.__init__`: IDLE, no recorded press, zero press
count; `now` stands for `datetime.now()` used for `state_entry_time`. -/
def initMachine (double_tap_timeout_ms debounce_time_ms now : Int) : ButtonStateMachine :=
  { current_state := .idle
    last_press_time := none
    press_count := 0
    state_entry_time := now
    double_tap_timeout_ms := double_tap_timeout_ms
    debounce_time_ms := debounce_time_ms }

/-- `ButtonStateMachine._should_debounce_event`: only `press` events are
debounced, and only when a previous press is recorded less than
`debounce_time_ms` ago. -/
def should_debounce_event (m : ButtonStateMachine) (e : ButtonEvent) : Bool :=
  if e.type ≠ .press then false
  else
    match m.last_press_time with
    | none => false
    | some lp => decide (e.timestamp - lp < m.debounce_time_ms)

/-- `ButtonStateMachine._should_timeout`. -/
def should_timeout (m : ButtonStateMachine) (current_time : Int) : Bool :=
  match m.last_press_time with
  | none => false
  | some lp => decide (m.double_tap_timeout_ms < current_time - lp)

/-- `ButtonStateMachine._reset_press_count`. -/
def reset_press_count (m : ButtonStateMachine) : ButtonStateMachine :=
  { m with press_count := 0, last_press_time := none }

/-- `ButtonStateMachine.reset`; `now` stands for the `datetime.now()`
written to `state_entry_time`. -/
def reset (m : ButtonStateMachine) (now : Int) : ButtonStateMachine :=
  { m with
      current_state := .idle
      last_press_time := none
      press_count := 0
      state_entry_time := now }

/-- `ButtonStateMachine._handle_idle_state`, returning the action list
and the updated machine. -/
def handle_idle_state (m : ButtonStateMachine) (e : ButtonEvent) :
    List String × ButtonStateMachine :=
  match e.type with
  | .press =>
    let now := e.timestamp
    let m' :=
      match m.last_press_time with
      | some lp =>
        if now - lp ≤ m.double_tap_timeout_ms then
          { m with press_count := m.press_count + 1 }
        else
          { m with press_count := 1 }
      | none => { m with press_count := 1 }
    ([], { m' with
            last_press_time := some now
            current_state := .pressed
            state_entry_time := now })
  | .timeout =>
    if should_timeout m e.timestamp then ([], reset_press_count m)
    else ([], m)
  | .release => ([], m)

/-- `ButtonStateMachine._handle_pressed_state`.  On `release` the action
list always starts with `"toggle"`; with `press_count >= 2` it also
carries `"double_tap"` and the press bookkeeping is cleared.  A `press`
with no recorded previous press compares `float("inf")`, which is never
`< double_tap_timeout_ms`, so it starts a new sequence. -/
def handle_pressed_state (m : ButtonStateMachine) (e : ButtonEvent) :
    List String × ButtonStateMachine :=
  match e.type with
  | .release =>
    let (actions, m') :=
      if m.press_count ≥ 2 then
        (["toggle", "double_tap"], { m with press_count := 0, last_press_time := none })
      else
        (["toggle"], m)
    (actions, { m' with current_state := .idle, state_entry_time := e.timestamp })
  | .press =>
    match m.last_press_time with
    | none =>
      ([], { m with press_count := 1, last_press_time := some e.timestamp })
    | some lp =>
      if e.timestamp - lp < m.double_tap_timeout_ms then
        ([], { m with press_count := m.press_count + 1, last_press_time := some e.timestamp })
      else
        ([], { m with press_count := 1, last_press_time := some e.timestamp })
  | .timeout => ([], m)

/-- Dispatch on `current_state` inside `process_event`'s `try` block. -/
def transition (m : ButtonStateMachine) (e : ButtonEvent) :
    List String × ButtonStateMachine :=
  match m.current_state with
  | .idle => handle_idle_state m e
  | .pressed => handle_pressed_state m e

/-- `ButtonStateMachine.process_event` with the `try`/`except` block made
explicit: the transition logic is a fallible `handler`; when it raises
(`Except.error`), `reset` runs, the empty action list is returned and the
exception does not escape.  `now` stands for the `datetime.now()` that
`reset` records on the error path. -/
def process_event_with
    (handler : ButtonStateMachine → ButtonEvent → Except Unit (List String × ButtonStateMachine))
    (now : Int) (m : ButtonStateMachine) (e : ButtonEvent) :
    List String × ButtonStateMachine :=
  if should_debounce_event m e then ([], m)
  else
    match handler m e with
    | .ok r => r
    | .error _ => ([], reset m now)

/-- `ButtonStateMachine.process_event`: the real transition handlers are
total, so the handler always returns `Except.ok`. -/
def process_event (m : ButtonStateMachine) (e : ButtonEvent) :
    List String × ButtonStateMachine :=
  process_event_with (fun m e => Except.ok (transition m e)) e.timestamp m e

/-- Feed a list of events through `process_event`, accumulating all
returned actions in order. -/
def run_events (m : ButtonStateMachine) (es : List ButtonEvent) :
    List String × ButtonStateMachine :=
  es.foldl
    (fun acc e =>
      let r := process_event acc.2 e
      (acc.1 ++ r.1, r.2))
    ([], m)

/-! ### HID device: button report decoding and LED report codec
(`src/muteme_btn/hid/device.py`) -/

/-- `LEDColor` enum from `hid/device.py`. -/
inductive LEDColor where
  | nocolor
  | red
  | green
  | yellow
  | blue
  | purple
  | cyan
  | white
deriving DecidableEq, Repr

/-- The numeric value of each `LEDColor` member. -/
def LEDColor.value : LEDColor → Nat
  | .nocolor => 0x00
  | .red => 0x01
  | .green => 0x02
  | .yellow => 0x03
  | .blue => 0x04
  | .purple => 0x05
  | .cyan => 0x06
  | .white => 0x07

/-- Decoding step of `MuteMeDevice.read_events`: given the bytes returned
by the 4-byte read, a report of length ≥ 4 yields one event whose type is
`press` exactly when `data[3] == 0x01`, else `release`; a shorter read
yields no event. -/
def read_events_decode (data : List Nat) : List EventType :=
  if 4 ≤ data.length then
    let button_byte := data.getD 3 0
    [if button_byte = 0x01 then EventType.press else EventType.release]
  else []

/-- `_build_report` inside `MuteMeDevice.set_led_color`: maps the report
format string and raw color value to the report bytes; any unrecognized
format falls back to the `standard` layout. -/
def build_report (report_format : String) (raw_value : Nat) : List Nat :=
  if report_format = "no_report_id" then [raw_value]
  else if report_format = "report_id_0" then [0x00, raw_value]
  else if report_format = "report_id_2" then [0x02, raw_value]
  else if report_format = "padded" then [0x01, raw_value, 0x00, 0x00, 0x00, 0x00, 0x00, 0x00]
  else [0x01, raw_value]

/-- The brightness/effect offset logic of `MuteMeDevice.set_led_color`
for the non-`flashing` modes: `dim`, `fast_pulse` and `slow_pulse` OR in
`0x10`/`0x20`/`0x30`; any other brightness string (including `normal`)
leaves the base color value unchanged. -/
def led_color_value (c : LEDColor) (brightness : String) : Nat :=
  if brightness = "dim" then c.value ||| 0x10
  else if brightness = "fast_pulse" then c.value ||| 0x20
  else if brightness = "slow_pulse" then c.value ||| 0x30
  else c.value

/-- The single report written by `set_led_color` for the non-`flashing`
brightness modes. -/
def set_led_color_report (report_format : String) (c : LEDColor) (brightness : String) :
    List Nat :=
  build_report report_format (led_color_value c brightness)

/-- `flash_cycles = 20` in `set_led_color`'s flashing branch. -/
def flash_cycles : Nat := 20

/-- The sequence of reports the `flashing` branch of `set_led_color`
attempts to write, in order: for each of the `flash_cycles` cycles an
"on" report with the base color value and an "off" report with
`NOCOLOR`, then one final "on" report. -/
def flashing_reports (report_format : String) (c : LEDColor) : List (List Nat) :=
  (List.range flash_cycles).flatMap
    (fun _ => [build_report report_format c.value,
               build_report report_format LEDColor.nocolor.value])
  ++ [build_report report_format c.value]

/-- Execution of a sequence of `_send_report` calls against a transport
whose write number `i` (counted from `i₀`) fails when `fails i = true`.
Mirrors the control flow of `set_led_color`: the writes happen in order
inside one `try` block, so the first failing write ends the sequence and
the `except` clause re-raises it as a `DeviceError`.  Returns the number
of writes attempted and whether a `DeviceError` was raised. -/
def run_writes (fails : Nat → Bool) : List (List Nat) → Nat → Nat × Bool
  | [], _ => (0, false)
  | _ :: rs, i =>
    if fails i then (1, true)
    else
      let r := run_writes fails rs (i + 1)
      (r.1 + 1, r.2)

/-- `set_led_color` in `flashing` mode against a transport with failure
oracle `fails`: attempted-write count and whether the call raised. -/
def set_led_color_flashing (fails : Nat → Bool) (report_format : String) (c : LEDColor) :
    Nat × Bool :=
  run_writes fails (flashing_reports report_format c) 0

/-! ### LED feedback controller (`core/led_feedback.py`) and daemon
action dispatch (`core/daemon.py`) -/

/-- The configuration state of `LEDFeedbackController` relevant to LED
sync: the two configured colors. -/
structure LEDFeedbackController where
  muted_color : LEDColor
  unmuted_color : LEDColor
deriving DecidableEq, Repr

/-- `LEDFeedbackController.update_led_to_mute_status`, with the two
collaborator observations (`device.is_connected()` and
`audio_backend.is_muted()`) as inputs.  Returns the controller state
after the call together with the trace of `set_led_color` calls it made:
when the device is not connected it returns immediately with an empty
trace. -/
def update_led_to_mute_status (ctl : LEDFeedbackController)
    (connected : Bool) (is_muted : Bool) :
    LEDFeedbackController × List LEDColor :=
  if !connected then (ctl, [])
  else
    let target := if is_muted then ctl.muted_color else ctl.unmuted_color
    (ctl, [target])

/-- The daemon state relevant to action dispatch: the state machine, the
audio collaborator's mute flag, the last LED color written (the LED
target), the LED controller configuration and device connectivity. -/
structure DaemonModel where
  machine : ButtonStateMachine
  connected : Bool
  muted : Bool
  led : Option LEDColor
  controller : LEDFeedbackController
deriving DecidableEq, Repr

/-- Apply a trace of `set_led_color` calls to the LED: the last written
color becomes the LED target. -/
def apply_led_writes (led : Option LEDColor) (writes : List LEDColor) : Option LEDColor :=
  writes.foldl (fun _ c => some c) led

/-- `MuteMeDaemon._update_led_feedback`: when the device is connected,
runs the controller's LED sync against the current mute status. -/
def update_led_feedback (d : DaemonModel) : DaemonModel :=
  { d with
      led := apply_led_writes d.led
        (update_led_to_mute_status d.controller d.connected d.muted).2 }

/-- `MuteMeDaemon._handle_action`: `"toggle"` reads `is_muted()`,
requests the negated value via `set_mute_state`, then re-runs LED
feedback; any other action string is logged and ignored. -/
def handle_action (d : DaemonModel) (action : String) : DaemonModel :=
  if action = "toggle" then
    let new_muted := !d.muted
    update_led_feedback { d with muted := new_muted }
  else d

/-- One iteration of `MuteMeDaemon._main_loop` with the given batch of
decoded button events: `_process_button_events` (skipped when the device
is disconnected) feeds each event through the state machine and
dispatches the de-duplicated actions, then `_update_led_feedback` runs.
The only action lists the state machine produces are `[]`, `["toggle"]`
and `["toggle", "double_tap"]`, whose elements are pairwise distinct, so
Python's `set(actions)` is modelled by `List.eraseDups`; the one action
with an effect (`"toggle"`) occurs at most once, so the set's iteration
order is immaterial. -/
def daemon_iteration (d : DaemonModel) (events : List ButtonEvent) : DaemonModel :=
  let d' :=
    if !d.connected then d
    else
      events.foldl
        (fun d e =>
          let r := process_event d.machine e
          (r.1.eraseDups).foldl handle_action { d with machine := r.2 })
        d
  update_led_feedback d'

/-! ### Theorems -/

/-- Unfolding of `process_event`: the debounce check, then the total
transition logic. -/
theorem process_event_eq (m : ButtonStateMachine) (e : ButtonEvent) :
    process_event m e = if should_debounce_event m e then ([], m) else transition m e := rfl

/-- Release events never hit the debounce filter. -/
theorem should_debounce_event_release (m : ButtonStateMachine) (e : ButtonEvent)
    (h : e.type = EventType.release) : should_debounce_event m e = false := by
  simp [should_debounce_event, h]

/-- C1: a `release` processed in the PRESSED state returns an action list
containing exactly one `"toggle"` element, and a `release` processed in
IDLE (for instance after the preceding press was debounced) returns the
empty action list. -/
theorem C1_release_toggle_exactness (m : ButtonStateMachine) (e : ButtonEvent)
    (hrel : e.type = EventType.release) :
    (m.current_state = ButtonState.pressed →
      (process_event m e).1.count "toggle" = 1)
    ∧ (m.current_state = ButtonState.idle → (process_event m e).1 = []) := by
  have hdeb := should_debounce_event_release m e hrel
  constructor
  · intro hs
    by_cases h2 : m.press_count ≥ 2 <;>
      simp [process_event_eq, hdeb, transition, hs, handle_pressed_state, hrel, h2,
        List.count_cons]
  · intro hs
    simp [process_event_eq, hdeb, transition, hs, handle_idle_state, hrel]

/-- Witness for C1 at a concrete PRESSED machine and at a concrete IDLE
machine. -/
theorem C1_release_toggle_exactness_witness :
    ((process_event ⟨ButtonState.pressed, some 0, 1, 0, 300, 10⟩
        ⟨EventType.release, 50⟩).1.count "toggle" = 1)
    ∧ ((process_event ⟨ButtonState.idle, some 0, 1, 0, 300, 10⟩
        ⟨EventType.release, 50⟩).1 = []) :=
  ⟨(C1_release_toggle_exactness ⟨ButtonState.pressed, some 0, 1, 0, 300, 10⟩
      ⟨EventType.release, 50⟩ rfl).1 rfl,
   (C1_release_toggle_exactness ⟨ButtonState.idle, some 0, 1, 0, 300, 10⟩
      ⟨EventType.release, 50⟩ rfl).2 rfl⟩

/-- C4: a `press` arriving strictly less than `debounce_time_ms` after
the recorded `last_press_time` is dropped with no state change at all;
`release` events are never debounced; and the round-trip press@0ms,
press@5ms, release@50ms with `debounce_time_ms = 10` and double-tap
window 300 produces exactly one `"toggle"` in total. -/
theorem C4_debounce_drop :
    (∀ (m : ButtonStateMachine) (e : ButtonEvent) (lp : Int),
      e.type = EventType.press → m.last_press_time = some lp →
      e.timestamp - lp < m.debounce_time_ms →
      process_event m e = ([], m))
    ∧ (∀ (m : ButtonStateMachine) (e : ButtonEvent),
      e.type = EventType.release → should_debounce_event m e = false)
    ∧ (run_events (initMachine 300 10 0)
        [⟨EventType.press, 0⟩, ⟨EventType.press, 5⟩, ⟨EventType.release, 50⟩]).1.count
          "toggle" = 1 := by
  refine ⟨?_, should_debounce_event_release, by decide⟩
  intro m e lp htype hlp hfast
  have hdeb : should_debounce_event m e = true := by
    simp [should_debounce_event, htype, hlp, hfast]
  simp [process_event_eq, hdeb]

/-- Witness for C4 on a concrete debounced press. -/
theorem C4_debounce_drop_witness :
    process_event ⟨ButtonState.pressed, some 0, 1, 0, 300, 10⟩ ⟨EventType.press, 5⟩
      = ([], ⟨ButtonState.pressed, some 0, 1, 0, 300, 10⟩)
    ∧ should_debounce_event (initMachine 300 10 0) ⟨EventType.release, 0⟩ = false :=
  ⟨C4_debounce_drop.1 ⟨ButtonState.pressed, some 0, 1, 0, 300, 10⟩ ⟨EventType.press, 5⟩ 0
      rfl rfl (by decide),
   C4_debounce_drop.2.1 (initMachine 300 10 0) ⟨EventType.release, 0⟩ rfl⟩

/-- C5: from the initial machine (double-tap window 300, debounce 10),
press@0, release@50, press@200, release@250 make the first release emit
only `"toggle"`, the second release emit `"toggle"` and `"double_tap"`,
and leave `press_count = 0` and `last_press_time = none`. -/
theorem C5_double_tap_scenario :
    (process_event (initMachine 300 10 0) ⟨EventType.press, 0⟩).1 = []
    ∧ (process_event (process_event (initMachine 300 10 0) ⟨EventType.press, 0⟩).2
        ⟨EventType.release, 50⟩).1 = ["toggle"]
    ∧ (process_event (process_event (process_event (initMachine 300 10 0)
        ⟨EventType.press, 0⟩).2 ⟨EventType.release, 50⟩).2 ⟨EventType.press, 200⟩).1 = []
    ∧ (process_event (process_event (process_event (process_event (initMachine 300 10 0)
        ⟨EventType.press, 0⟩).2 ⟨EventType.release, 50⟩).2 ⟨EventType.press, 200⟩).2
        ⟨EventType.release, 250⟩).1 = ["toggle", "double_tap"]
    ∧ (process_event (process_event (process_event (process_event (initMachine 300 10 0)
        ⟨EventType.press, 0⟩).2 ⟨EventType.release, 50⟩).2 ⟨EventType.press, 200⟩).2
        ⟨EventType.release, 250⟩).2.press_count = 0
    ∧ (process_event (process_event (process_event (process_event (initMachine 300 10 0)
        ⟨EventType.press, 0⟩).2 ⟨EventType.release, 50⟩).2 ⟨EventType.press, 200⟩).2
        ⟨EventType.release, 250⟩).2.last_press_time = none := by
  decide

/-- C8: when the transition logic raises, `process_event` returns the
empty action list and the machine is reset (IDLE, no recorded press,
zero press count) with the exception suppressed; and `reset` always
produces exactly that state, whatever the prior state. -/
theorem C8_error_reset :
    (∀ (handler : ButtonStateMachine → ButtonEvent →
        Except Unit (List String × ButtonStateMachine))
      (now : Int) (m : ButtonStateMachine) (e : ButtonEvent),
      should_debounce_event m e = false →
      handler m e = Except.error () →
      process_event_with handler now m e = ([], reset m now))
    ∧ (∀ (m : ButtonStateMachine) (now : Int),
      (reset m now).current_state = ButtonState.idle
      ∧ (reset m now).last_press_time = none
      ∧ (reset m now).press_count = 0) := by
  constructor
  · intro handler now m e hdeb herr
    simp [process_event_with, hdeb, herr]
  · intro m now
    exact ⟨rfl, rfl, rfl⟩

/-- Witness for C8 with a concrete always-raising handler and a concrete
pre-state for `reset`. -/
theorem C8_error_reset_witness :
    process_event_with (fun _ _ => Except.error ()) 7
        ⟨ButtonState.pressed, some 3, 2, 1, 300, 10⟩ ⟨EventType.release, 50⟩
      = ([], reset ⟨ButtonState.pressed, some 3, 2, 1, 300, 10⟩ 7)
    ∧ (reset ⟨ButtonState.pressed, some 3, 2, 1, 300, 10⟩ 7).current_state = ButtonState.idle
    ∧ (reset ⟨ButtonState.pressed, some 3, 2, 1, 300, 10⟩ 7).last_press_time = none
    ∧ (reset ⟨ButtonState.pressed, some 3, 2, 1, 300, 10⟩ 7).press_count = 0 :=
  ⟨C8_error_reset.1 (fun _ _ => Except.error ()) 7
      ⟨ButtonState.pressed, some 3, 2, 1, 300, 10⟩ ⟨EventType.release, 50⟩ (by decide) rfl,
   C8_error_reset.2 ⟨ButtonState.pressed, some 3, 2, 1, 300, 10⟩ 7⟩

/-- The C10 invariant: the press count is zero exactly when no last
press time is recorded. -/
def press_invariant (m : ButtonStateMachine) : Prop :=
  m.press_count = 0 ↔ m.last_press_time = none

/-- C10: `press_count = 0 ↔ last_press_time = none` holds after
construction and after every `reset`, and is preserved by
`process_event` for every event type in both states. -/
theorem C10_press_count_invariant :
    (∀ (dt db now : Int), press_invariant (initMachine dt db now))
    ∧ (∀ (m : ButtonStateMachine) (now : Int), press_invariant (reset m now))
    ∧ (∀ (m : ButtonStateMachine) (e : ButtonEvent),
        press_invariant m → press_invariant (process_event m e).2) := by
  refine ⟨?_, ?_, ?_⟩
  · intro dt db now
    simp [press_invariant, initMachine]
  · intro m now
    simp [press_invariant, reset]
  · rintro ⟨cs, lpt, pc, se, dt, db⟩ ⟨t, ts⟩ h
    rw [process_event_eq]
    split
    · exact h
    · cases cs <;> cases t <;> cases lpt <;>
        simp only [transition, handle_idle_state, handle_pressed_state, should_timeout,
          reset_press_count, press_invariant] at h ⊢ <;>
        (try split_ifs) <;> simp_all [press_invariant]

/-- Witness for C10: the invariant is preserved on a concrete step from
a concrete state satisfying it. -/
theorem C10_press_count_invariant_witness :
    press_invariant (process_event (initMachine 300 10 0) ⟨EventType.press, 0⟩).2 :=
  C10_press_count_invariant.2.2 (initMachine 300 10 0) ⟨EventType.press, 0⟩
    (by simp [press_invariant, initMachine])

/-- C2 counterexample: the claim "any nonzero value at byte index 3
decodes as pressed" is false: the report `[0, 0, 0, 2]` has a nonzero
byte at index 3 yet `read_events_decode` yields a release event, because
the source compares `button_byte == 0x01` rather than `!= 0`. -/
theorem C2_nonzero_press_counterexample :
    ¬ (∀ data : List Nat, 4 ≤ data.length → data.getD 3 0 ≠ 0 →
        read_events_decode data = [EventType.press]) := by
  intro h
  exact absurd (h [0, 0, 0, 2] (by decide) (by decide)) (by decide)

/-- C2 (amended): for every report of at least 4 bytes, the decoded
event is a press exactly when the byte at index 3 equals `0x01`, and a
release exactly when that byte differs from `0x01` (so nonzero values
other than `0x01` decode as release). -/
theorem C2_press_iff_byte_one (data : List Nat) (hlen : 4 ≤ data.length) :
    (read_events_decode data = [EventType.press] ↔ data.getD 3 0 = 0x01)
    ∧ (read_events_decode data = [EventType.release] ↔ data.getD 3 0 ≠ 0x01) := by
  unfold read_events_decode
  rw [if_pos hlen]
  by_cases hb : data.getD 3 0 = 0x01 <;> simp [hb]

/-- Witness for the amended C2 at the concrete reports used by the
device. -/
theorem C2_press_iff_byte_one_witness :
    (read_events_decode [0, 0, 0, 1] = [EventType.press]
      ↔ ([0, 0, 0, 1] : List Nat).getD 3 0 = 0x01)
    ∧ (read_events_decode [0, 0, 0, 1] = [EventType.release]
      ↔ ([0, 0, 0, 1] : List Nat).getD 3 0 ≠ 0x01) :=
  C2_press_iff_byte_one [0, 0, 0, 1] (by decide)

/-- Helper: when no write fails, every report in the list is written and
no error is raised. -/
theorem run_writes_all_ok (fails : Nat → Bool) (h : ∀ j, fails j = false) :
    ∀ (rs : List (List Nat)) (i : Nat), run_writes fails rs i = (rs.length, false) := by
  intro rs
  induction rs with
  | nil => intro i; rfl
  | cons r rs ih =>
    intro i
    simp [run_writes, h i, ih (i + 1)]

/-- Helper: when write number `i + k` is the first failing write, the
sequence stops after `k + 1` attempts with the error raised. -/
theorem run_writes_first_fail (fails : Nat → Bool) :
    ∀ (rs : List (List Nat)) (i k : Nat), k < rs.length →
      fails (i + k) = true → (∀ j, j < k → fails (i + j) = false) →
      run_writes fails rs i = (k + 1, true) := by
  intro rs
  induction rs with
  | nil =>
    intro i k hk
    simp at hk
  | cons r rs ih =>
    intro i k hk hf hmin
    cases k with
    | zero =>
      have h0 : fails i = true := by simpa using hf
      simp [run_writes, h0]
    | succ k' =>
      have h0 : fails i = false := by simpa using hmin 0 (Nat.succ_pos _)
      have hf' : fails ((i + 1) + k') = true := by
        rw [show (i + 1) + k' = i + (k' + 1) by omega]
        exact hf
      have hmin' : ∀ j, j < k' → fails ((i + 1) + j) = false := by
        intro j hj
        rw [show (i + 1) + j = i + (j + 1) by omega]
        exact hmin (j + 1) (by omega)
      have hrec := ih (i + 1) k' (by simpa using hk) hf' hmin'
      simp [run_writes, h0, hrec]

/-- C3 counterexample: the claim that a FLASHING-mode write failure does
not abort the remaining frames (with per-frame errors aggregated) is
false: the full sequence has 41 frames, yet when the very first frame
write fails, exactly one write is attempted — the remaining 40 frames
are never written — and the failure is raised as a `DeviceError`. -/
theorem C3_flashing_abort_counterexample :
    (flashing_reports "report_id_0" LEDColor.red).length = 41
    ∧ set_led_color_flashing (fun i => i == 0) "report_id_0" LEDColor.red = (1, true) := by
  decide

/-- C3 (amended): in FLASHING mode all frame writes happen inside one
`try` block: when no write fails, all frames (20 on/off cycles plus the
final on-report) are written and no error is raised; when frame `k` is
the first failing frame, the sequence aborts after `k + 1` attempts and
the first failure is raised immediately as a `DeviceError` (no
aggregation). -/
theorem C3_flashing_abort_on_first_failure (fails : Nat → Bool)
    (report_format : String) (c : LEDColor) :
    ((∀ j, fails j = false) →
      set_led_color_flashing fails report_format c
        = ((flashing_reports report_format c).length, false))
    ∧ (∀ k, k < (flashing_reports report_format c).length → fails k = true →
        (∀ j, j < k → fails j = false) →
        set_led_color_flashing fails report_format c = (k + 1, true)) := by
  constructor
  · intro h
    exact run_writes_all_ok fails h _ 0
  · intro k hk hf hmin
    exact run_writes_first_fail fails _ 0 k hk (by simpa using hf) (by simpa using hmin)

/-- Witness for the amended C3: with frame 3 the first failing frame,
exactly 4 writes are attempted and the error is raised. -/
theorem C3_flashing_abort_on_first_failure_witness :
    set_led_color_flashing (fun i => i == 3) "standard" LEDColor.red = (4, true) :=
  (C3_flashing_abort_on_first_failure (fun i => i == 3) "standard" LEDColor.red).2 3
    (by decide) (by decide) (by decide)

/-- C6: NORMAL brightness carries the unmodified base color code and
DIM/FAST_PULSE/SLOW_PULSE add exactly `0x10`/`0x20`/`0x30` for every
color; each report format places the code in its documented byte
layout; and the `report_id_0` report for RED at NORMAL brightness is
literally `[0x00, 0x01]`. -/
theorem C6_led_report_codec :
    (∀ c : LEDColor,
      led_color_value c "normal" = c.value
      ∧ led_color_value c "dim" = c.value + 0x10
      ∧ led_color_value c "fast_pulse" = c.value + 0x20
      ∧ led_color_value c "slow_pulse" = c.value + 0x30)
    ∧ (∀ code : Nat,
      build_report "standard" code = [0x01, code]
      ∧ build_report "no_report_id" code = [code]
      ∧ build_report "report_id_0" code = [0x00, code]
      ∧ build_report "report_id_2" code = [0x02, code]
      ∧ build_report "padded" code = [0x01, code, 0x00, 0x00, 0x00, 0x00, 0x00, 0x00])
    ∧ set_led_color_report "report_id_0" LEDColor.red "normal" = [0x00, 0x01] := by
  refine ⟨?_, ?_, rfl⟩
  · intro c
    cases c <;> exact ⟨rfl, rfl, rfl, rfl⟩
  · intro code
    exact ⟨rfl, rfl, rfl, rfl, rfl⟩

/-- C7: dispatching `"toggle"` sets the mute state to the negation of
the value just read and re-runs LED sync; starting unmuted with the
default colors, one press/release cycle leaves the daemon muted with the
LED on `muted_color` (RED), and a second cycle restores both initial
values. -/
theorem C7_toggle_round_trip :
    (∀ d : DaemonModel, d.connected = true →
      handle_action d "toggle" =
        { d with
            muted := !d.muted
            led := some (if !d.muted then d.controller.muted_color
                         else d.controller.unmuted_color) })
    ∧ (daemon_iteration (daemon_iteration
        { machine := initMachine 300 10 0, connected := true, muted := false,
          led := some LEDColor.green,
          controller := ⟨LEDColor.red, LEDColor.green⟩ }
        [⟨EventType.press, 0⟩]) [⟨EventType.release, 100⟩]).muted = true
    ∧ (daemon_iteration (daemon_iteration
        { machine := initMachine 300 10 0, connected := true, muted := false,
          led := some LEDColor.green,
          controller := ⟨LEDColor.red, LEDColor.green⟩ }
        [⟨EventType.press, 0⟩]) [⟨EventType.release, 100⟩]).led = some LEDColor.red
    ∧ (daemon_iteration (daemon_iteration (daemon_iteration (daemon_iteration
        { machine := initMachine 300 10 0, connected := true, muted := false,
          led := some LEDColor.green,
          controller := ⟨LEDColor.red, LEDColor.green⟩ }
        [⟨EventType.press, 0⟩]) [⟨EventType.release, 100⟩])
        [⟨EventType.press, 1000⟩]) [⟨EventType.release, 1100⟩]).muted = false
    ∧ (daemon_iteration (daemon_iteration (daemon_iteration (daemon_iteration
        { machine := initMachine 300 10 0, connected := true, muted := false,
          led := some LEDColor.green,
          controller := ⟨LEDColor.red, LEDColor.green⟩ }
        [⟨EventType.press, 0⟩]) [⟨EventType.release, 100⟩])
        [⟨EventType.press, 1000⟩]) [⟨EventType.release, 1100⟩]).led
          = some LEDColor.green := by
  refine ⟨?_, by decide, by decide, by decide, by decide⟩
  intro d hc
  simp [handle_action, update_led_feedback, update_led_to_mute_status,
    apply_led_writes, hc]

/-- Witness for C7 at a concrete connected daemon state. -/
theorem C7_toggle_round_trip_witness :
    handle_action
        { machine := initMachine 300 10 0, connected := true, muted := false,
          led := some LEDColor.green,
          controller := ⟨LEDColor.red, LEDColor.green⟩ } "toggle" =
      { machine := initMachine 300 10 0, connected := true, muted := true,
        led := some LEDColor.red,
        controller := ⟨LEDColor.red, LEDColor.green⟩ } :=
  C7_toggle_round_trip.1
    { machine := initMachine 300 10 0, connected := true, muted := false,
      led := some LEDColor.green, controller := ⟨LEDColor.red, LEDColor.green⟩ } rfl

/-- C9: for every mute status and controller configuration, LED sync
with a disconnected device returns normally with the configuration
unchanged and an empty write trace (the device write path is never
invoked). -/
theorem C9_disconnected_silent_noop (ctl : LEDFeedbackController) (is_muted : Bool) :
    update_led_to_mute_status ctl false is_muted = (ctl, []) := rfl

end MuteMe
